import Mathlib

/-!
# Deposit checkout server (`server.js`): handlers and their validation rules

A shallow embedding of the three route handlers of `server.js`
(`POST /webhook/stripe`, `POST /api/create-checkout-session`, `POST /api/contact`),
of `safeText`, of the `DEPOSITS` table and of the e-mail regular expression.

Modelling conventions.

* A JavaScript string is the list of its UTF-16 code units (`.length`, `.slice`,
  `.trim` and a regular expression without the `u` flag all work on code units).
* A handler is a pure function returning the trace of observable effects
  (provider calls, console output) together with the way it ended: a response
  that was sent, or an exception that left the handler.
* The payment provider SDK (`stripe.checkout.sessions.create`,
  `stripe.webhooks.constructEvent`) is a parameter of the handlers.
-/

namespace DepositServer

deriving instance DecidableEq for Except

/-! ## Strings -/

/-- A JavaScript string: its UTF-16 code units. -/
abbrev JSString := List Nat

/-- UTF-16 code units of a source literal. -/
def utf16 (s : String) : JSString :=
  s.toList.flatMap fun c =>
    if c.toNat < 65536 then [c.toNat]
    else [55296 + (c.toNat - 65536) / 1024, 56320 + (c.toNat - 65536) % 1024]

/-- Code units that `String.prototype.trim` strips and that `\s` matches:
ECMAScript WhiteSpace and LineTerminator. -/
def isWhiteSpace (c : Nat) : Bool :=
  c == 9 || c == 10 || c == 11 || c == 12 || c == 13 || c == 32 || c == 160 ||
  c == 5760 || (8192 ≤ c && c ≤ 8202) || c == 8232 || c == 8233 || c == 8239 ||
  c == 8287 || c == 12288 || c == 65279

/-- Embedding of `String.prototype.trim`. -/
def trim (s : JSString) : JSString :=
  ((s.dropWhile isWhiteSpace).reverse.dropWhile isWhiteSpace).reverse

/-- Embedding of `s.slice(0, max)` for an integer `max ≥ 0`. -/
def slice0 (s : JSString) (max : Nat) : JSString :=
  s.take max

/-! ## Values -/

/-- A JavaScript number, as far as the handlers observe one: whether it is falsy
(`0`, `-0`, `NaN`) and the text `String(n)` gives. Number formatting itself is
floating point and is not interpreted. -/
structure JSNumber where
  falsy : Bool
  text : JSString
deriving DecidableEq, Repr

/-- What a request field can hold: a parsed JSON value, or `undefined` for a
missing field. An object is the list of its own properties. -/
inductive JSValue where
  | undefined
  | null
  | bool (b : Bool)
  | num (n : JSNumber)
  | str (s : JSString)
  | arr (items : List JSValue)
  | obj (props : List (JSString × JSValue))
deriving Repr

/-- An exception value, with its `message`. -/
structure JSError where
  message : JSString
deriving DecidableEq, Repr

/-- The `TypeError` of `OrdinaryToPrimitive` when neither `toString` nor `valueOf`
gives a primitive. -/
def cannotConvert : JSError :=
  ⟨utf16 "Cannot convert object to primitive value"⟩

/-- Truthiness (`ToBoolean`). -/
def truthy : JSValue → Bool
  | .undefined => false
  | .null => false
  | .bool b => b
  | .num n => !n.falsy
  | .str s => !s.isEmpty
  | .arr _ => true
  | .obj _ => true

/-- Whether an object has an own property named `key`. -/
def hasOwn (props : List (JSString × JSValue)) (key : JSString) : Bool :=
  props.any fun p => p.1 == key

/-- Join already converted array elements with a comma (code unit 44). -/
def joinComma : List JSString → JSString
  | [] => []
  | [s] => s
  | s :: rest => s ++ 44 :: joinComma rest

mutual
/-- Embedding of `String(v)` (`ToString`) on a request value.

An array goes through `Array.prototype.join`. A plain object goes through
`OrdinaryToPrimitive` with hint string: an own `toString` property of a parsed
JSON object is never callable and hides `Object.prototype.toString`, and
`valueOf` (own, not callable; or inherited, returning the object) gives no
primitive, so the conversion throws; without an own `toString` the result is
`[object Object]`. -/
def toText : JSValue → Except JSError JSString
  | .undefined => .ok (utf16 "undefined")
  | .null => .ok (utf16 "null")
  | .bool true => .ok (utf16 "true")
  | .bool false => .ok (utf16 "false")
  | .num n => .ok n.text
  | .str s => .ok s
  | .arr items => (elemTexts items).map joinComma
  | .obj props =>
    if hasOwn props (utf16 "toString") then .error cannotConvert
    else .ok (utf16 "[object Object]")
/-- Texts of array elements as `join` takes them: `undefined` and `null` give the
empty string, anything else is converted with `ToString`, left to right. -/
def elemTexts : List JSValue → Except JSError (List JSString)
  | [] => .ok []
  | v :: rest =>
    let head : Except JSError JSString :=
      match v with
      | .undefined => .ok []
      | .null => .ok []
      | w => toText w
    match head with
    | .error e => .error e
    | .ok s =>
      match elemTexts rest with
      | .error e => .error e
      | .ok ss => .ok (s :: ss)
end

/-- Embedding of `safeText(v, max)`: `String(v || "").trim().slice(0, max)`.
Every call in `server.js` passes `max`, so the default of 200 is not modelled. -/
def safeText (v : JSValue) (max : Nat) : Except JSError JSString :=
  (toText (if truthy v then v else .str [])).map fun s => slice0 (trim s) max

/-- Embedding of the optional read `v?.key` for the keys the handlers read (`planId`,
`email`, `name`, `message`, `budget`, `service`, `company` of the body; `type`,
`data`, `object`, `id`, `customer_details` of an event): an own property of a
parsed object; `undefined` on `undefined` and `null`, on a missing key and on
arrays and primitives, which carry no property of these names. -/
def getField (body : JSValue) (key : JSString) : JSValue :=
  match body with
  | .obj props =>
    match props.find? (fun p => p.1 == key) with
    | some p => p.2
    | none => .undefined
  | _ => .undefined

/-! ## The e-mail pattern -/

/-- A single-unit matcher of the pattern: the class `[^\s@]` or a literal unit. -/
inductive Atom where
  | notSpaceAt
  | unit (c : Nat)
deriving DecidableEq, Repr

/-- One element of a pattern: an atom, or an atom under `+`. -/
inductive Piece where
  | one (a : Atom)
  | plus (a : Atom)
deriving DecidableEq, Repr

/-- Whether a code unit matches an atom. -/
def Atom.test : Atom → Nat → Bool
  | .notSpaceAt, c => !(isWhiteSpace c || c == 64)
  | .unit u, c => c == u

/-- Backtracking match of a sequence of pieces against the whole input: the pattern
is anchored with `^` and `$` and has no flags. -/
def matchAll : List Piece → JSString → Bool
  | [], [] => true
  | [], _ :: _ => false
  | _ :: _, [] => false
  | .one a :: ps, c :: s => a.test c && matchAll ps s
  | .plus a :: ps, c :: s => a.test c && (matchAll (.plus a :: ps) s || matchAll ps s)

/-- The pattern `/^[^\s@]+@[^\s@]+\.[^\s@]+$/`. -/
def emailPattern : List Piece :=
  [.plus .notSpaceAt, .one (.unit 64), .plus .notSpaceAt, .one (.unit 46), .plus .notSpaceAt]

/-- Embedding of `/^[^\s@]+@[^\s@]+\.[^\s@]+$/.test(email)`. -/
def emailTest (email : JSString) : Bool :=
  matchAll emailPattern email

/-! ## The deposit table -/

/-- An entry of `DEPOSITS`. -/
structure Plan where
  name : JSString
  description : JSString
  amount : Nat
deriving DecidableEq, Repr

/-- The own properties of the object literal `DEPOSITS`. -/
def DEPOSITS : List (JSString × Plan) :=
  [ (utf16 "starter_deposit",
      ⟨utf16 "Starter — Project Deposit",
       utf16 "Deposit to start: landing/one-page web or small scope kickoff.", 15000⟩),
    (utf16 "pro_deposit",
      ⟨utf16 "Pro — Project Deposit",
       utf16 "Deposit to start: multi-page or stronger scope kickoff.", 30000⟩),
    (utf16 "studio_deposit",
      ⟨utf16 "Studio — Project Deposit",
       utf16 "Deposit to start: higher scope / priority scheduling.", 50000⟩) ]

/-- The function-valued properties every plain object inherits from
`Object.prototype`, each with the `name` of the function it holds. -/
def objectPrototypeFunctions : List (JSString × JSString) :=
  [ (utf16 "constructor", utf16 "Object"),
    (utf16 "__defineGetter__", utf16 "__defineGetter__"),
    (utf16 "__defineSetter__", utf16 "__defineSetter__"),
    (utf16 "hasOwnProperty", utf16 "hasOwnProperty"),
    (utf16 "__lookupGetter__", utf16 "__lookupGetter__"),
    (utf16 "__lookupSetter__", utf16 "__lookupSetter__"),
    (utf16 "isPrototypeOf", utf16 "isPrototypeOf"),
    (utf16 "propertyIsEnumerable", utf16 "propertyIsEnumerable"),
    (utf16 "toString", utf16 "toString"),
    (utf16 "valueOf", utf16 "valueOf"),
    (utf16 "toLocaleString", utf16 "toLocaleString") ]

/-- What `DEPOSITS[key]` evaluates to. -/
inductive Property where
  | plan (p : Plan)
  | function (name : JSString)
  | objectPrototype
  | undefined
deriving DecidableEq, Repr

/-- Embedding of the property read `DEPOSITS[key]`: own properties first, then the
prototype chain, which for an object literal is `Object.prototype` (its methods,
`constructor`, and the accessor `__proto__`, which yields `Object.prototype`). -/
def depositsGet (key : JSString) : Property :=
  match DEPOSITS.find? (fun e => e.1 == key) with
  | some e => .plan e.2
  | none =>
    match objectPrototypeFunctions.find? (fun e => e.1 == key) with
    | some e => .function e.2
    | none => if key == utf16 "__proto__" then .objectPrototype else .undefined

/-- Truthiness of a property value: everything but `undefined`. -/
def Property.truthy : Property → Bool
  | .undefined => false
  | _ => true

/-- The read `plan.amount`. A function and `Object.prototype` have no such property. -/
def Property.amount : Property → Option Nat
  | .plan p => some p.amount
  | _ => none

/-- The read `plan.name`. A function has its own `name`. -/
def Property.name : Property → Option JSString
  | .plan p => some p.name
  | .function n => some n
  | _ => none

/-- The read `plan.description`. -/
def Property.description : Property → Option JSString
  | .plan p => some p.description
  | _ => none

/-! ## Requests to the provider, effects, responses -/

/-- The `product_data` of a line item. An absent (`undefined`) member is `none`. -/
structure ProductData where
  name : Option JSString
  description : Option JSString
deriving DecidableEq, Repr

/-- The `price_data` of a line item. -/
structure PriceData where
  currency : JSString
  unit_amount : Option Nat
  product_data : ProductData
deriving DecidableEq, Repr

/-- A line item of the session request. -/
structure LineItem where
  quantity : Nat
  price_data : PriceData
deriving DecidableEq, Repr

/-- The argument of `stripe.checkout.sessions.create`. -/
structure SessionParams where
  mode : JSString
  success_url : JSString
  cancel_url : JSString
  customer_email : Option JSString
  line_items : List LineItem
  metadata_planId : JSString
deriving DecidableEq, Repr

/-- The session the provider returns; only `url` is read (`string | null`). -/
structure Session where
  url : Option JSString
deriving DecidableEq, Repr

/-- The raw request of the webhook route: the unparsed body (absent when the
content type is not JSON) and the `stripe-signature` header. -/
structure WebhookRequest where
  body : Option (List Nat)
  signature : Option JSString
deriving DecidableEq, Repr

/-- Observable effects of a handler, in the order they happen. -/
inductive Effect where
  | sessionsCreate (params : SessionParams)
  | constructEvent (req : WebhookRequest) (secret : JSString)
  | consoleError (err : JSError)
  | logPaymentCompleted (id : JSValue) (email : JSValue)
  | logNewLead (name email service budget : JSString) (messageLength : Nat)
deriving Repr

/-- Body of a response: one of the JSON objects the handlers send with `res.json`,
or the text sent with `res.send`. -/
inductive ResBody where
  | error (msg : JSString)
  | url (u : Option JSString)
  | ok
  | received
  | text (s : JSString)
deriving DecidableEq, Repr

/-- How a handler call ends. -/
inductive Outcome where
  | responded (status : Nat) (body : ResBody)
  | threw (err : JSError)
deriving DecidableEq, Repr

/-- A handler run: the effects performed and the outcome. -/
structure Run where
  effects : List Effect
  outcome : Outcome
deriving Repr

/-- Whether an effect is the "payment completed" log line. -/
def Effect.isPaymentCompleted : Effect → Bool
  | .logPaymentCompleted _ _ => true
  | _ => false

/-! ## `POST /webhook/stripe` -/

/-- Truthiness of an environment variable: unset and empty are falsy. -/
def envTruthy : Option JSString → Bool
  | none => false
  | some s => !s.isEmpty

/-- The `TypeError` of a property read on `undefined` or `null`; `base` is the text
of the value read from, `key` the property. Code unit 39 is the quote around the
property name. -/
def cannotRead (base key : JSString) : JSError :=
  ⟨utf16 "Cannot read properties of " ++ base ++ utf16 " (reading " ++ 39 :: key ++ [39, 41]⟩

/-- Embedding of a plain property read `base.key` for the keys the webhook handler
reads (`type`, `data`, `object`, `id`, `customer_details`): it throws on
`undefined` and `null`, and is otherwise the own property, or `undefined`. -/
def readProp (base : JSValue) (key : JSString) : Except JSError JSValue :=
  match base with
  | .undefined => .error (cannotRead (utf16 "undefined") key)
  | .null => .error (cannotRead (utf16 "null") key)
  | v => .ok (getField v key)

/-- Embedding of `v === "..."` against a string literal. -/
def strictEqString (v : JSValue) (s : JSString) : Bool :=
  match v with
  | .str t => t == s
  | _ => false

/-- The reads of the `checkout.session.completed` branch, in evaluation order:
`event.data.object`, then the arguments `session.id` and
`session.customer_details?.email` of the log call. The result is the pair of
logged values. -/
def completedSessionReads (event : JSValue) : Except JSError (JSValue × JSValue) := do
  let data ← readProp event (utf16 "data")
  let session ← readProp data (utf16 "object")
  let id ← readProp session (utf16 "id")
  let details ← readProp session (utf16 "customer_details")
  pure (id, getField details (utf16 "email"))

/-- Embedding of the webhook handler. `constructEvent` is the verification routine of
the provider, which returns the parsed payload, any JSON value, without a check
of its shape; `wh` is the value of `STRIPE_WEBHOOK_SECRET`. The handler has no
`try` around the dispatch: an exception raised by a read leaves the handler. -/
def stripeWebhook
    (constructEvent : WebhookRequest → JSString → Except JSError JSValue)
    (wh : Option JSString) (req : WebhookRequest) : Run :=
  if !envTruthy wh then
    ⟨[], .responded 500 (.text (utf16 "Webhook secret missing."))⟩
  else
    let secret := wh.getD []
    match constructEvent req secret with
    | .error err =>
      ⟨[.constructEvent req secret],
        .responded 400 (.text (utf16 "Webhook Error: " ++ err.message))⟩
    | .ok event =>
      match readProp event (utf16 "type") with
      | .error err => ⟨[.constructEvent req secret], .threw err⟩
      | .ok type =>
        if strictEqString type (utf16 "checkout.session.completed") then
          match completedSessionReads event with
          | .error err => ⟨[.constructEvent req secret], .threw err⟩
          | .ok logged =>
            ⟨[.constructEvent req secret, .logPaymentCompleted logged.1 logged.2],
              .responded 200 .received⟩
        else
          ⟨[.constructEvent req secret], .responded 200 .received⟩

/-! ## `POST /api/create-checkout-session` -/

/-- The `catch` block of the checkout handler, entered after the effects `done`. -/
def checkoutCatch (done : List Effect) (err : JSError) : Run :=
  ⟨done ++ [.consoleError err],
    .responded 500 (.error (utf16 "Unable to create checkout session."))⟩

/-- The object passed to `stripe.checkout.sessions.create`. -/
def sessionParams (baseUrl planId email : JSString) (plan : Property) : SessionParams where
  mode := utf16 "payment"
  success_url := baseUrl ++ utf16 "/?paid=1"
  cancel_url := baseUrl ++ utf16 "/?canceled=1"
  customer_email := if email.isEmpty then none else some email
  line_items :=
    [ { quantity := 1
        price_data :=
          { currency := utf16 "usd"
            unit_amount := plan.amount
            product_data := { name := plan.name, description := plan.description } } } ]
  metadata_planId := planId

/-- Embedding of the checkout handler. `baseUrl` is `BASE_URL`, `create` the
provider's `stripe.checkout.sessions.create`. -/
def createCheckoutSession (baseUrl : JSString)
    (create : SessionParams → Except JSError Session) (body : JSValue) : Run :=
  match safeText (getField body (utf16 "planId")) 40 with
  | .error err => checkoutCatch [] err
  | .ok planId =>
    match safeText (getField body (utf16 "email")) 120 with
    | .error err => checkoutCatch [] err
    | .ok email =>
      if !(depositsGet planId).truthy then
        ⟨[], .responded 400 (.error (utf16 "Invalid plan."))⟩
      else if !email.isEmpty && !emailTest email then
        ⟨[], .responded 400 (.error (utf16 "Invalid email."))⟩
      else
        let plan := depositsGet planId
        let params := sessionParams baseUrl planId email plan
        match create params with
        | .error err => checkoutCatch [.sessionsCreate params] err
        | .ok session => ⟨[.sessionsCreate params], .responded 200 (.url session.url)⟩

/-! ## `POST /api/contact` -/

/-- The sanitised fields of a contact submission. -/
structure Lead where
  name : JSString
  email : JSString
  message : JSString
  budget : JSString
  service : JSString
  hp : JSString
deriving DecidableEq, Repr

/-- The six `safeText` calls that open the contact handler, in source order. The
first conversion that throws ends the sequence. -/
def contactFields (body : JSValue) : Except JSError Lead := do
  let name ← safeText (getField body (utf16 "name")) 80
  let email ← safeText (getField body (utf16 "email")) 120
  let message ← safeText (getField body (utf16 "message")) 2000
  let budget ← safeText (getField body (utf16 "budget")) 60
  let service ← safeText (getField body (utf16 "service")) 60
  let hp ← safeText (getField body (utf16 "company")) 80
  pure ⟨name, email, message, budget, service, hp⟩

/-- Embedding of the contact handler. It has no `try`: an exception raised while
sanitising leaves the handler. -/
def contact (body : JSValue) : Run :=
  match contactFields body with
  | .error err => ⟨[], .threw err⟩
  | .ok f =>
    if !f.hp.isEmpty then ⟨[], .responded 200 .ok⟩
    else if f.name.length < 2 || f.message.length < 10 then
      ⟨[], .responded 400 (.error (utf16 "Please provide a valid name and message."))⟩
    else if !f.email.isEmpty && !emailTest f.email then
      ⟨[], .responded 400 (.error (utf16 "Invalid email."))⟩
    else
      ⟨[.logNewLead f.name f.email f.service f.budget f.message.length], .responded 200 .ok⟩

/-! ## Evaluation on sample requests -/

/-- A request body with the given string fields. -/
def bodyOf (fields : List (String × String)) : JSValue :=
  .obj (fields.map fun f => (utf16 f.1, .str (utf16 f.2)))

/-- A verified event for sample runs: a completed checkout session. -/
def sampleEvent : JSValue :=
  .obj [ (utf16 "type", .str (utf16 "checkout.session.completed")),
         (utf16 "data", .obj [ (utf16 "object", .obj
            [ (utf16 "id", .str (utf16 "cs_test_1")),
              (utf16 "customer_details", .obj [(utf16 "email", .str (utf16 "a@b.com"))]) ]) ]) ]

/-- A completed checkout session event that carries no `data`. -/
def eventWithoutData : JSValue :=
  .obj [(utf16 "type", .str (utf16 "checkout.session.completed"))]

/-- A verification routine for sample runs. It accepts nothing, and like the
routine of the provider it raises one error for a header from which no timestamp
and signature can be extracted (here: a missing header or one without `=`, code
unit 61) and another for a header whose signature does not match the payload. -/
def rejectingRoutine (req : WebhookRequest) (_secret : JSString) : Except JSError JSValue :=
  match req.signature with
  | none => .error ⟨utf16 "Unable to extract timestamp and signatures from header"⟩
  | some header =>
    if header.contains 61 then
      .error ⟨utf16 "No signatures found matching the expected signature for payload."⟩
    else .error ⟨utf16 "Unable to extract timestamp and signatures from header"⟩

/-- The session requests a run sent to the provider, in order. -/
def requestedSessions (run : Run) : List SessionParams :=
  run.effects.filterMap fun e =>
    match e with
    | .sessionsCreate p => some p
    | _ => none

/-- The ids of the catalogue: the own keys of `DEPOSITS`. -/
def catalogIds : List JSString :=
  DEPOSITS.map Prod.fst

/-! ## The e-mail shape in the specification's words -/

/-- The `local@domain.tld` shape as the specification words it: no whitespace
character, exactly one `@` (code unit 64), at least one character before it, and
after it a part containing a `.` (code unit 46) with at least one character before
and at least one character after. -/
def EmailShape (s : JSString) : Prop :=
  (∀ c ∈ s, isWhiteSpace c = false) ∧ s.count 64 = 1 ∧
  ∃ loc dom, s = loc ++ 64 :: dom ∧ loc ≠ [] ∧
    ∃ a b, dom = a ++ 46 :: b ∧ a ≠ [] ∧ b ≠ []

/-! ## Lemmas on the matcher -/

theorem matchAll_nil (s : JSString) : matchAll [] s = true ↔ s = [] := by
  cases s <;> simp [matchAll]

theorem matchAll_one (a : Atom) (ps : List Piece) (s : JSString) :
    matchAll (.one a :: ps) s = true ↔
      ∃ c t, s = c :: t ∧ a.test c = true ∧ matchAll ps t = true := by
  cases s with
  | nil => simp [matchAll]
  | cons c t =>
    simp only [matchAll, Bool.and_eq_true]
    constructor
    · intro h
      exact ⟨c, t, rfl, h.1, h.2⟩
    · rintro ⟨d, u, hs, hd, hu⟩
      obtain ⟨rfl, rfl⟩ := List.cons.inj hs
      exact ⟨hd, hu⟩

theorem matchAll_plus (a : Atom) (ps : List Piece) (s : JSString) :
    matchAll (.plus a :: ps) s = true ↔
      ∃ x y, x ≠ [] ∧ s = x ++ y ∧ (∀ c ∈ x, a.test c = true) ∧ matchAll ps y = true := by
  induction s with
  | nil =>
    simp only [matchAll, Bool.false_eq_true, false_iff]
    rintro ⟨x, y, hx, hs, -, -⟩
    cases x with
    | nil => exact hx rfl
    | cons d x => simp at hs
  | cons c t ih =>
    simp only [matchAll, Bool.and_eq_true, Bool.or_eq_true]
    constructor
    · rintro ⟨hc, hrest | hrest⟩
      · obtain ⟨x, y, -, ht, hall, hy⟩ := ih.mp hrest
        refine ⟨c :: x, y, by simp, by simp [ht], ?_, hy⟩
        intro d hd
        rcases List.mem_cons.mp hd with rfl | hd
        · exact hc
        · exact hall d hd
      · exact ⟨[c], t, by simp, by simp, by simpa using hc, hrest⟩
    · rintro ⟨x, y, hx, hs, hall, hy⟩
      cases x with
      | nil => exact absurd rfl hx
      | cons d x =>
        simp only [List.cons_append, List.cons.injEq] at hs
        obtain ⟨rfl, rfl⟩ := hs
        refine ⟨hall c (by simp), ?_⟩
        cases x with
        | nil => right; simpa using hy
        | cons e x =>
          left
          exact ih.mpr ⟨e :: x, y, by simp, rfl, fun d hd => hall d (List.mem_cons_of_mem _ hd), hy⟩

/-- The pattern read off piece by piece. -/
theorem emailTest_iff_split (s : JSString) :
    emailTest s = true ↔
      ∃ x y z, x ≠ [] ∧ y ≠ [] ∧ z ≠ [] ∧ s = x ++ 64 :: (y ++ 46 :: z) ∧
        (∀ c ∈ x, Atom.notSpaceAt.test c = true) ∧
        (∀ c ∈ y, Atom.notSpaceAt.test c = true) ∧
        (∀ c ∈ z, Atom.notSpaceAt.test c = true) := by
  unfold emailTest emailPattern
  constructor
  · intro h
    obtain ⟨x, r1, hx, hs, hxall, h⟩ := (matchAll_plus _ _ _).mp h
    obtain ⟨c1, r2, hr1, hc1, h⟩ := (matchAll_one _ _ _).mp h
    obtain ⟨y, r3, hy, hr2, hyall, h⟩ := (matchAll_plus _ _ _).mp h
    obtain ⟨c2, r4, hr3, hc2, h⟩ := (matchAll_one _ _ _).mp h
    obtain ⟨z, r5, hz, hr4, hzall, h⟩ := (matchAll_plus _ _ _).mp h
    have hr5 := (matchAll_nil _).mp h
    simp only [Atom.test, beq_iff_eq] at hc1 hc2
    subst hr5 hc1 hc2 hr4 hr3 hr2 hr1
    exact ⟨x, y, z, hx, hy, hz, by simpa using hs, hxall, hyall, hzall⟩
  · rintro ⟨x, y, z, hx, hy, hz, hs, hxall, hyall, hzall⟩
    refine (matchAll_plus _ _ _).mpr ⟨x, 64 :: (y ++ 46 :: z), hx, hs, hxall, ?_⟩
    refine (matchAll_one _ _ _).mpr ⟨64, y ++ 46 :: z, rfl, by simp [Atom.test], ?_⟩
    refine (matchAll_plus _ _ _).mpr ⟨y, 46 :: z, hy, rfl, hyall, ?_⟩
    refine (matchAll_one _ _ _).mpr ⟨46, z, rfl, by simp [Atom.test], ?_⟩
    exact (matchAll_plus _ _ _).mpr ⟨z, [], hz, by simp, hzall, by simp [matchAll]⟩

theorem notSpaceAt_test (c : Nat) :
    Atom.notSpaceAt.test c = true ↔ isWhiteSpace c = false ∧ c ≠ 64 := by
  simp [Atom.test]

/-- The regular expression accepts exactly the strings of the specified shape. -/
theorem emailTest_iff_shape (s : JSString) : emailTest s = true ↔ EmailShape s := by
  rw [emailTest_iff_split]
  constructor
  · rintro ⟨x, y, z, hx, hy, hz, rfl, hxall, hyall, hzall⟩
    simp only [notSpaceAt_test] at hxall hyall hzall
    refine ⟨?_, ?_, x, y ++ 46 :: z, rfl, hx, y, z, rfl, hy, hz⟩
    · intro c hc
      simp only [List.mem_append, List.mem_cons] at hc
      rcases hc with hc | rfl | hc | rfl | hc
      · exact (hxall c hc).1
      · decide
      · exact (hyall c hc).1
      · decide
      · exact (hzall c hc).1
    · have h0 : ∀ l : JSString, (∀ c ∈ l, isWhiteSpace c = false ∧ c ≠ 64) → l.count 64 = 0 := by
        intro l hl
        exact List.count_eq_zero.mpr fun hmem => (hl 64 hmem).2 rfl
      simp [List.count_append, List.count_cons, h0 x hxall, h0 y hyall, h0 z hzall]
  · rintro ⟨hws, hcount, loc, dom, rfl, hloc, a, b, rfl, ha, hb⟩
    simp only [List.count_append, List.count_cons, beq_self_eq_true, if_true] at hcount
    have hnot : ∀ l : JSString, l.count 64 = 0 → (∀ c ∈ l, c ∈ loc ++ 64 :: (a ++ 46 :: b)) →
        ∀ c ∈ l, Atom.notSpaceAt.test c = true := by
      intro l hl hsub c hc
      rw [notSpaceAt_test]
      refine ⟨hws c (hsub c hc), ?_⟩
      rintro rfl
      exact (List.count_eq_zero.mp hl) hc
    refine ⟨loc, a, b, hloc, ha, hb, rfl, hnot loc (by omega) ?_, hnot a (by omega) ?_,
      hnot b (by omega) ?_⟩ <;> intro c hc <;> simp [hc]

/-! ## Lemmas on the handlers -/

theorem trim_nil : trim [] = [] := by
  simp [trim]

theorem contactFields_ok (body : JSValue) (f : Lead) (h : contactFields body = .ok f) :
    safeText (getField body (utf16 "name")) 80 = .ok f.name ∧
    safeText (getField body (utf16 "email")) 120 = .ok f.email ∧
    safeText (getField body (utf16 "message")) 2000 = .ok f.message ∧
    safeText (getField body (utf16 "budget")) 60 = .ok f.budget ∧
    safeText (getField body (utf16 "service")) 60 = .ok f.service ∧
    safeText (getField body (utf16 "company")) 80 = .ok f.hp := by
  unfold contactFields at h
  cases h1 : safeText (getField body (utf16 "name")) 80 <;>
  cases h2 : safeText (getField body (utf16 "email")) 120 <;>
  cases h3 : safeText (getField body (utf16 "message")) 2000 <;>
  cases h4 : safeText (getField body (utf16 "budget")) 60 <;>
  cases h5 : safeText (getField body (utf16 "service")) 60 <;>
  cases h6 : safeText (getField body (utf16 "company")) 80 <;>
  simp only [h1, h2, h3, h4, h5, h6, bind, Except.bind, pure, Except.pure] at h <;>
  (cases h; try simp)

/-- Past its two checks the checkout handler asks the provider for a session and
answers from what the provider returns. -/
theorem createCheckoutSession_validated (baseUrl : JSString)
    (create : SessionParams → Except JSError Session) (body : JSValue)
    (planId email : JSString)
    (hp : safeText (getField body (utf16 "planId")) 40 = .ok planId)
    (he : safeText (getField body (utf16 "email")) 120 = .ok email)
    (hplan : (depositsGet planId).truthy = true)
    (hemail : email = [] ∨ emailTest email = true) :
    createCheckoutSession baseUrl create body =
      match create (sessionParams baseUrl planId email (depositsGet planId)) with
      | .error err =>
        checkoutCatch [.sessionsCreate (sessionParams baseUrl planId email (depositsGet planId))] err
      | .ok session =>
        ⟨[.sessionsCreate (sessionParams baseUrl planId email (depositsGet planId))],
          .responded 200 (.url session.url)⟩ := by
  have hcheck : (!email.isEmpty && !emailTest email) = false := by
    rcases hemail with rfl | h
    · rfl
    · simp [h]
  simp only [createCheckoutSession, hp, he, hplan, hcheck]
  cases create (sessionParams baseUrl planId email (depositsGet planId)) <;> simp

/-- For a plan id that is an own key of `DEPOSITS` the request sent to the provider
has one line item, of quantity 1, priced at the amount of that catalogue entry,
which is positive. -/
theorem checkout_catalog_amount (baseUrl : JSString)
    (create : SessionParams → Except JSError Session) (body : JSValue)
    (planId email : JSString) (plan : Plan)
    (hp : safeText (getField body (utf16 "planId")) 40 = .ok planId)
    (he : safeText (getField body (utf16 "email")) 120 = .ok email)
    (hplan : (planId, plan) ∈ DEPOSITS)
    (hemail : email = [] ∨ emailTest email = true) :
    ∃ params, requestedSessions (createCheckoutSession baseUrl create body) = [params] ∧
      params.line_items.map (fun i => (i.quantity, i.price_data.unit_amount))
        = [(1, some plan.amount)] ∧ 0 < plan.amount := by
  have hget : depositsGet planId = .plan plan := by
    simp only [DEPOSITS, List.mem_cons, Prod.mk.injEq, List.mem_nil_iff, or_false] at hplan
    rcases hplan with ⟨rfl, rfl⟩ | ⟨rfl, rfl⟩ | ⟨rfl, rfl⟩ <;> decide
  have hpos : 0 < plan.amount := by
    simp only [DEPOSITS, List.mem_cons, Prod.mk.injEq, List.mem_nil_iff, or_false] at hplan
    rcases hplan with ⟨-, rfl⟩ | ⟨-, rfl⟩ | ⟨-, rfl⟩ <;> decide
  refine ⟨sessionParams baseUrl planId email (depositsGet planId), ?_, ?_, hpos⟩
  · rw [createCheckoutSession_validated baseUrl create body planId email hp he
      (by rw [hget]; rfl) hemail]
    cases create (sessionParams baseUrl planId email (depositsGet planId)) <;>
      simp [requestedSessions, checkoutCatch]
  · simp [sessionParams, hget, Property.amount]

/-- With every field converted and an empty sanitised honeypot, the contact handler
records the lead once and answers ok exactly when the name has at least 2 units,
the message at least 10 and the e-mail is empty or of the specified shape; in
every other case it answers 400 with an error body and records nothing. -/
theorem contact_converted_iff (body : JSValue) (f : Lead)
    (hf : contactFields body = .ok f) (hhp : f.hp = []) :
    (contact body =
        ⟨[.logNewLead f.name f.email f.service f.budget f.message.length], .responded 200 .ok⟩ ↔
      2 ≤ f.name.length ∧ 10 ≤ f.message.length ∧ (f.email = [] ∨ EmailShape f.email)) ∧
    (¬(2 ≤ f.name.length ∧ 10 ≤ f.message.length ∧ (f.email = [] ∨ EmailShape f.email)) →
      ∃ msg, contact body = ⟨[], .responded 400 (.error msg)⟩) := by
  have hrun : contact body =
      if f.name.length < 2 || f.message.length < 10 then
        ⟨[], .responded 400 (.error (utf16 "Please provide a valid name and message."))⟩
      else if !f.email.isEmpty && !emailTest f.email then
        ⟨[], .responded 400 (.error (utf16 "Invalid email."))⟩
      else
        ⟨[.logNewLead f.name f.email f.service f.budget f.message.length],
          .responded 200 .ok⟩ := by
    simp [contact, hf, hhp]
  rw [hrun, ← emailTest_iff_shape]
  by_cases h1 : f.name.length < 2
  · simp [h1]
  by_cases h2 : f.message.length < 10
  · simp [h2]
  by_cases h3 : f.email = []
  · simp [h1, h2, h3]
    omega
  cases h4 : emailTest f.email
  · simp [h1, h2, h3, h4]
  · simp [h1, h2, h3, h4]
    omega

/-! ## The claims -/

/-- C1, evaluated where the code departs from it: `constructor` is no key of the
catalogue, yet for the body with `planId` set to `constructor` the read
`DEPOSITS[planId]` finds the inherited `Object` function, the plan check passes,
the provider is asked for a session and the answer is not the 400 of an invalid
plan, whatever the provider returns. -/
theorem checkout_inherited_plan_id_reaches_provider (baseUrl : JSString)
    (create : SessionParams → Except JSError Session) :
    safeText (getField (bodyOf [("planId", "constructor")]) (utf16 "planId")) 40
      = .ok (utf16 "constructor") ∧
    utf16 "constructor" ∉ catalogIds ∧
    requestedSessions (createCheckoutSession baseUrl create (bodyOf [("planId", "constructor")]))
      = [sessionParams baseUrl (utf16 "constructor") [] (.function (utf16 "Object"))] ∧
    (createCheckoutSession baseUrl create (bodyOf [("planId", "constructor")])).outcome
      ≠ .responded 400 (.error (utf16 "Invalid plan.")) := by
  have hget : depositsGet (utf16 "constructor") = .function (utf16 "Object") := by decide
  have hrun := createCheckoutSession_validated baseUrl create
    (bodyOf [("planId", "constructor")]) (utf16 "constructor") [] (by decide) (by decide)
    (by decide) (Or.inl rfl)
  rw [hget] at hrun
  refine ⟨by decide, by decide, ?_, ?_⟩
  · rw [hrun]
    cases create (sessionParams baseUrl (utf16 "constructor") [] (.function (utf16 "Object"))) <;>
      simp [requestedSessions, checkoutCatch]
  · rw [hrun]
    cases create (sessionParams baseUrl (utf16 "constructor") [] (.function (utf16 "Object"))) <;>
      simp [checkoutCatch]

/-- C2, evaluated where the code departs from it: the body with `planId` set to
`toString` passes both checks of the handler, and the one session requested from
the provider has a single line item of quantity 1 whose `unit_amount` is
`undefined`, not a positive amount of the catalogue. -/
theorem checkout_inherited_plan_id_has_no_amount (baseUrl : JSString)
    (create : SessionParams → Except JSError Session) :
    ∃ params,
      requestedSessions (createCheckoutSession baseUrl create
        (bodyOf [("planId", "toString"), ("amount", "1")])) = [params] ∧
      params.line_items.map (fun i => (i.quantity, i.price_data.unit_amount)) = [(1, none)] := by
  have hget : depositsGet (utf16 "toString") = .function (utf16 "toString") := by decide
  have hrun := createCheckoutSession_validated baseUrl create
    (bodyOf [("planId", "toString"), ("amount", "1")]) (utf16 "toString") [] (by decide)
    (by decide) (by decide) (Or.inl rfl)
  rw [hget] at hrun
  refine ⟨sessionParams baseUrl (utf16 "toString") [] (.function (utf16 "toString")), ?_, ?_⟩
  · rw [hrun]
    cases create (sessionParams baseUrl (utf16 "toString") [] (.function (utf16 "toString"))) <;>
      simp [requestedSessions, checkoutCatch]
  · simp [sessionParams, Property.amount]

/-- C3: the webhook handler fails closed. Without a configured secret the run is
the bare response 500 `Webhook secret missing.`, with no effect at all: the
verification routine is not called, whatever it would answer. With a secret and a
verification that raises an error the response is a 400 text. In both cases no
"payment completed" line is logged and the body `received` is not sent. -/
theorem webhook_fails_closed
    (constructEvent : WebhookRequest → JSString → Except JSError JSValue)
    (wh : Option JSString) (req : WebhookRequest)
    (h : envTruthy wh = false ∨ ∃ err, constructEvent req (wh.getD []) = .error err) :
    (envTruthy wh = false →
      stripeWebhook constructEvent wh req
        = ⟨[], .responded 500 (.text (utf16 "Webhook secret missing."))⟩) ∧
    (envTruthy wh = true →
      ∃ text, (stripeWebhook constructEvent wh req).outcome = .responded 400 (.text text)) ∧
    (stripeWebhook constructEvent wh req).effects.all (fun e => !e.isPaymentCompleted) = true ∧
    (∀ status, (stripeWebhook constructEvent wh req).outcome ≠ .responded status .received) := by
  cases hwh : envTruthy wh
  · simp [stripeWebhook, hwh]
  · rcases h with h | ⟨err, herr⟩
    · rw [hwh] at h
      cases h
    · simp [stripeWebhook, hwh, herr, Effect.isPaymentCompleted]

/-- Witness of C3: no secret configured and a verification routine that would
accept the request; and a configured secret with a verification that rejects. -/
theorem webhook_fails_closed_witness :
    (envTruthy none = false ∧
      stripeWebhook (fun _ _ => .ok sampleEvent) none ⟨some [123, 125], some (utf16 "t=1,v1=00")⟩
        = ⟨[], .responded 500 (.text (utf16 "Webhook secret missing."))⟩) ∧
    (envTruthy (some (utf16 "whsec_1")) = true ∧
      ∃ text, (stripeWebhook (fun _ _ => .error ⟨utf16 "bad signature"⟩) (some (utf16 "whsec_1"))
        ⟨some [123, 125], some (utf16 "t=1,v1=00")⟩).outcome = .responded 400 (.text text)) :=
  ⟨⟨rfl, (webhook_fails_closed (fun _ _ => .ok sampleEvent) none
      ⟨some [123, 125], some (utf16 "t=1,v1=00")⟩ (Or.inl rfl)).1 rfl⟩,
   ⟨rfl, (webhook_fails_closed (fun _ _ => .error ⟨utf16 "bad signature"⟩)
      (some (utf16 "whsec_1")) ⟨some [123, 125], some (utf16 "t=1,v1=00")⟩
      (Or.inr ⟨⟨utf16 "bad signature"⟩, rfl⟩)).2.1 rfl⟩⟩

/-- For a configured secret and an event the verification routine returns, when
the reads of the handler succeed the response is 200 with the body `received`,
and the "payment completed" line is logged once when the type is the string
`checkout.session.completed` and not at all otherwise. -/
theorem webhook_dispatch_of_readable_event
    (constructEvent : WebhookRequest → JSString → Except JSError JSValue)
    (wh : Option JSString) (req : WebhookRequest) (event type : JSValue)
    (hwh : envTruthy wh = true)
    (hok : constructEvent req (wh.getD []) = .ok event)
    (htype : readProp event (utf16 "type") = .ok type)
    (hreads : strictEqString type (utf16 "checkout.session.completed") = true →
      ∃ logged, completedSessionReads event = .ok logged) :
    (stripeWebhook constructEvent wh req).outcome = .responded 200 .received ∧
    ((stripeWebhook constructEvent wh req).effects.filter Effect.isPaymentCompleted).length
      = (if strictEqString type (utf16 "checkout.session.completed") then 1 else 0) := by
  cases ht : strictEqString type (utf16 "checkout.session.completed")
  · simp [stripeWebhook, hwh, hok, htype, ht, Effect.isPaymentCompleted]
  · obtain ⟨logged, hl⟩ := hreads ht
    simp [stripeWebhook, hwh, hok, htype, ht, hl, Effect.isPaymentCompleted]

/-- C4, evaluated where the code departs from it: with a configured secret, a
request that the verification routine accepts and whose payload is a
`checkout.session.completed` event without `data` makes the unguarded read
`event.data.object` throw a `TypeError`; the exception leaves the handler, so the
body `received` is not sent with status 200 and the "payment completed" line is
not logged. -/
theorem webhook_completed_event_without_data_throws
    (constructEvent : WebhookRequest → JSString → Except JSError JSValue)
    (wh : Option JSString) (req : WebhookRequest)
    (hwh : envTruthy wh = true)
    (hok : constructEvent req (wh.getD []) = .ok eventWithoutData) :
    stripeWebhook constructEvent wh req
      = ⟨[.constructEvent req (wh.getD [])],
         .threw (cannotRead (utf16 "undefined") (utf16 "object"))⟩ ∧
    (stripeWebhook constructEvent wh req).outcome ≠ .responded 200 .received ∧
    ((stripeWebhook constructEvent wh req).effects.filter Effect.isPaymentCompleted).length
      = 0 := by
  have htype : readProp eventWithoutData (utf16 "type")
      = .ok (.str (utf16 "checkout.session.completed")) := by rfl
  have heq : strictEqString (.str (utf16 "checkout.session.completed"))
      (utf16 "checkout.session.completed") = true := by decide
  have hreads : completedSessionReads eventWithoutData
      = .error (cannotRead (utf16 "undefined") (utf16 "object")) := by rfl
  have hrun : stripeWebhook constructEvent wh req
      = ⟨[.constructEvent req (wh.getD [])],
         .threw (cannotRead (utf16 "undefined") (utf16 "object"))⟩ := by
    simp only [stripeWebhook, hwh, hok, htype, heq, hreads]
    rfl
  refine ⟨hrun, ?_, ?_⟩
  · rw [hrun]
    simp
  · rw [hrun]
    simp [Effect.isPaymentCompleted]

/-- Witness of the evaluation for C4: a routine that accepts the request and
returns the event without `data`. -/
theorem webhook_completed_event_without_data_throws_witness :
    envTruthy (some (utf16 "whsec_1")) = true ∧
    (stripeWebhook (fun _ _ => .ok eventWithoutData) (some (utf16 "whsec_1"))
      ⟨some [123, 125], some (utf16 "t=1,v1=00")⟩).outcome
      ≠ .responded 200 .received :=
  ⟨rfl, (webhook_completed_event_without_data_throws (fun _ _ => .ok eventWithoutData)
    (some (utf16 "whsec_1")) ⟨some [123, 125], some (utf16 "t=1,v1=00")⟩ rfl rfl).2.1⟩

/-- C5, evaluated where the code departs from it: with a configured secret, for
one verification routine and two requests it rejects, each response is the 400
text `Webhook Error: ` followed by the message of the error raised for that
request, so when the two messages differ the two bodies differ: the body sent to
the client depends on the error raised by the verification routine. -/
theorem webhook_error_body_echoes_message
    (constructEvent : WebhookRequest → JSString → Except JSError JSValue)
    (wh : Option JSString) (req₁ req₂ : WebhookRequest) (e₁ e₂ : JSError)
    (hwh : envTruthy wh = true)
    (h₁ : constructEvent req₁ (wh.getD []) = .error e₁)
    (h₂ : constructEvent req₂ (wh.getD []) = .error e₂)
    (hne : e₁.message ≠ e₂.message) :
    (stripeWebhook constructEvent wh req₁).outcome
      = .responded 400 (.text (utf16 "Webhook Error: " ++ e₁.message)) ∧
    (stripeWebhook constructEvent wh req₂).outcome
      = .responded 400 (.text (utf16 "Webhook Error: " ++ e₂.message)) ∧
    (stripeWebhook constructEvent wh req₁).outcome
      ≠ (stripeWebhook constructEvent wh req₂).outcome := by
  have ho₁ : (stripeWebhook constructEvent wh req₁).outcome
      = .responded 400 (.text (utf16 "Webhook Error: " ++ e₁.message)) := by
    simp [stripeWebhook, hwh, h₁]
  have ho₂ : (stripeWebhook constructEvent wh req₂).outcome
      = .responded 400 (.text (utf16 "Webhook Error: " ++ e₂.message)) := by
    simp [stripeWebhook, hwh, h₂]
  refine ⟨ho₁, ho₂, ?_⟩
  rw [ho₁, ho₂]
  intro h
  simp only [Outcome.responded.injEq, ResBody.text.injEq, true_and] at h
  exact hne (List.append_cancel_left h)

/-- Witness of the evaluation for C5: one routine, one request with the header `x`
and one with the header `t=1,v1=00`. -/
theorem webhook_error_body_echoes_message_witness :
    (stripeWebhook rejectingRoutine (some (utf16 "whsec_1"))
        ⟨some [123, 125], some (utf16 "x")⟩).outcome
      ≠ (stripeWebhook rejectingRoutine (some (utf16 "whsec_1"))
        ⟨some [123, 125], some (utf16 "t=1,v1=00")⟩).outcome :=
  (webhook_error_body_echoes_message rejectingRoutine (some (utf16 "whsec_1"))
    ⟨some [123, 125], some (utf16 "x")⟩ ⟨some [123, 125], some (utf16 "t=1,v1=00")⟩
    ⟨utf16 "Unable to extract timestamp and signatures from header"⟩
    ⟨utf16 "No signatures found matching the expected signature for payload."⟩
    rfl rfl rfl (by decide)).2.2

/-- C6 as stated fails: a `company` field holding one space is not empty, but it
is trimmed to the empty string before the honeypot test, so the submission is
validated like any other: without a name it gets the 400 validation error, and
with a valid name and message the lead is logged. -/
theorem contact_blank_honeypot_not_discarded :
    getField (bodyOf [("company", " ")]) (utf16 "company") = .str [32] ∧
    contact (bodyOf [("company", " ")])
      = ⟨[], .responded 400 (.error (utf16 "Please provide a valid name and message."))⟩ ∧
    contact (bodyOf [("name", "Al"), ("message", "0123456789"), ("company", " ")])
      = ⟨[.logNewLead (utf16 "Al") [] [] [] 10], .responded 200 .ok⟩ := by
  refine ⟨rfl, rfl, rfl⟩

/-- C6, amended: when the six fields of a contact submission all convert to text
and the sanitised honeypot (the text of `company`, trimmed, cut to 80 units) is
not empty, the handler answers 200 with the body `ok` and performs no effect: no
lead is logged and no validation error is returned, whatever the other fields
hold. -/
theorem contact_honeypot_discards (body : JSValue) (f : Lead) (hp : JSString)
    (hf : contactFields body = .ok f)
    (hhp : safeText (getField body (utf16 "company")) 80 = .ok hp)
    (hne : hp ≠ []) :
    contact body = ⟨[], .responded 200 .ok⟩ := by
  have hfield := (contactFields_ok body f hf).2.2.2.2.2
  rw [hhp] at hfield
  have hfh : f.hp = hp := (Except.ok.inj hfield).symm
  have hemp : f.hp.isEmpty = false := by
    rw [hfh]
    cases hp with
    | nil => exact absurd rfl hne
    | cons c t => rfl
  simp [contact, hf, hemp]

/-- Witness of the amended C6: a filled honeypot next to fields that would fail
validation. -/
theorem contact_honeypot_discards_witness :
    contact (bodyOf [("name", "x"), ("email", "nope"), ("company", "Acme")])
      = ⟨[], .responded 200 .ok⟩ :=
  contact_honeypot_discards (bodyOf [("name", "x"), ("email", "nope"), ("company", "Acme")])
    ⟨utf16 "x", utf16 "nope", [], [], [], utf16 "Acme"⟩ (utf16 "Acme")
    (by decide) (by decide) (by decide)

/-- C7, evaluated where the code departs from it: a JSON body whose `name` is an
object with an own `toString` key (and whose honeypot is absent) makes the first
`safeText` call throw a `TypeError`; the contact handler has no `try`, so the
exception leaves the handler and no 400 response is sent. -/
theorem contact_throws_on_unconvertible_field :
    contact (.obj [(utf16 "name", .obj [(utf16 "toString", .str (utf16 "x"))]),
                   (utf16 "message", .str (utf16 "0123456789"))])
      = ⟨[], .threw cannotConvert⟩ := by
  rfl

/-- C8: the e-mail check of both handlers lets a sanitised e-mail through exactly
when it is empty or has the `local@domain.tld` shape of the specification. Past
the plan check the checkout handler answers 400 `Invalid email.` exactly for the
other strings, and so does the contact handler past its honeypot and length
checks. `a@b.com` passes, `not-an-email` gets 400 `Invalid email.` from both
handlers, the empty string passes. -/
theorem email_check_accepts_iff_shape :
    (∀ email : JSString,
      (!email.isEmpty && !emailTest email) = false ↔ (email = [] ∨ EmailShape email)) ∧
    (∀ (baseUrl : JSString) (create : SessionParams → Except JSError Session) (body : JSValue)
        (planId email : JSString),
      safeText (getField body (utf16 "planId")) 40 = .ok planId →
      safeText (getField body (utf16 "email")) 120 = .ok email →
      (depositsGet planId).truthy = true →
      (createCheckoutSession baseUrl create body
          = ⟨[], .responded 400 (.error (utf16 "Invalid email."))⟩
        ↔ ¬(email = [] ∨ EmailShape email))) ∧
    (∀ (body : JSValue) (f : Lead),
      contactFields body = .ok f → f.hp = [] → 2 ≤ f.name.length → 10 ≤ f.message.length →
      (contact body = ⟨[], .responded 400 (.error (utf16 "Invalid email."))⟩
        ↔ ¬(f.email = [] ∨ EmailShape f.email))) ∧
    emailTest (utf16 "a@b.com") = true ∧
    emailTest (utf16 "not-an-email") = false ∧
    (∀ (baseUrl : JSString) (create : SessionParams → Except JSError Session),
      createCheckoutSession baseUrl create
          (bodyOf [("planId", "pro_deposit"), ("email", "not-an-email")])
        = ⟨[], .responded 400 (.error (utf16 "Invalid email."))⟩) ∧
    contact (bodyOf [("name", "Al"), ("message", "0123456789"), ("email", "not-an-email")])
      = ⟨[], .responded 400 (.error (utf16 "Invalid email."))⟩ ∧
    contact (bodyOf [("name", "Al"), ("message", "0123456789"), ("email", "")])
      = ⟨[.logNewLead (utf16 "Al") [] [] [] 10], .responded 200 .ok⟩ := by
  have hcheck : ∀ email : JSString,
      (!email.isEmpty && !emailTest email) = false ↔ (email = [] ∨ EmailShape email) := by
    intro email
    rw [← emailTest_iff_shape]
    cases email with
    | nil => simp
    | cons c t => cases h : emailTest (c :: t) <;> simp
  refine ⟨hcheck, ?_, ?_, by decide, by decide, ?_, rfl, rfl⟩
  · intro baseUrl create body planId email hp he hplan
    rw [← hcheck]
    cases hc : (!email.isEmpty && !emailTest email)
    · have hemail : email = [] ∨ emailTest email = true := by
        cases email with
        | nil => exact Or.inl rfl
        | cons c t => right; simpa using hc
      rw [createCheckoutSession_validated baseUrl create body planId email hp he hplan hemail]
      cases create (sessionParams baseUrl planId email (depositsGet planId)) <;>
        simp [checkoutCatch]
    · simp [createCheckoutSession, hp, he, hplan, hc]
  · intro body f hf hhp hname hmsg
    rw [← hcheck]
    have h1 : ¬ f.name.length < 2 := by omega
    have h2 : ¬ f.message.length < 10 := by omega
    cases hc : (!f.email.isEmpty && !emailTest f.email) <;>
      simp [contact, hf, hhp, h1, h2, hc]
  · intro baseUrl create
    have hp : safeText (getField (bodyOf [("planId", "pro_deposit"), ("email", "not-an-email")])
        (utf16 "planId")) 40 = .ok (utf16 "pro_deposit") := by decide
    have he : safeText (getField (bodyOf [("planId", "pro_deposit"), ("email", "not-an-email")])
        (utf16 "email")) 120 = .ok (utf16 "not-an-email") := by decide
    have hplan : (depositsGet (utf16 "pro_deposit")).truthy = true := by decide
    have hc : (!(utf16 "not-an-email").isEmpty && !emailTest (utf16 "not-an-email")) = true := by
      decide
    simp only [createCheckoutSession, hp, he, hplan, hc]
    rfl

/-- Witness of C8: the general parts at concrete requests with the e-mail
`a@b.com`, which neither handler answers with `Invalid email.`. -/
theorem email_check_accepts_iff_shape_witness :
    EmailShape (utf16 "a@b.com") ∧
    createCheckoutSession [] (fun _ => .ok ⟨some (utf16 "https://pay.example/1")⟩)
        (bodyOf [("planId", "pro_deposit"), ("email", "a@b.com")])
      ≠ ⟨[], .responded 400 (.error (utf16 "Invalid email."))⟩ ∧
    contact (bodyOf [("name", "Al"), ("message", "0123456789"), ("email", "a@b.com")])
      ≠ ⟨[], .responded 400 (.error (utf16 "Invalid email."))⟩ :=
  have hshape : EmailShape (utf16 "a@b.com") :=
    ((email_check_accepts_iff_shape.1 (utf16 "a@b.com")).mp (by decide)).resolve_left (by decide)
  ⟨hshape,
   fun h => ((email_check_accepts_iff_shape.2.1 [] (fun _ => .ok ⟨some (utf16 "https://pay.example/1")⟩)
      (bodyOf [("planId", "pro_deposit"), ("email", "a@b.com")]) (utf16 "pro_deposit")
      (utf16 "a@b.com") (by decide) (by decide) (by decide)).mp h) (Or.inr hshape),
   fun h => ((email_check_accepts_iff_shape.2.2.1
      (bodyOf [("name", "Al"), ("message", "0123456789"), ("email", "a@b.com")])
      ⟨utf16 "Al", utf16 "a@b.com", utf16 "0123456789", [], [], []⟩
      (by decide) rfl (by decide) (by decide)).mp h) (Or.inr hshape)⟩

/-- C9 as stated fails: for the JSON value `false` the text form is `false`, so the
claimed result for a cut at 10 is `false`; `safeText` returns the empty string. -/
theorem safeText_false_is_empty :
    (toText (.bool false)).map (fun s => slice0 (trim s) 10) = .ok (utf16 "false") ∧
    safeText (.bool false) 10 = .ok [] := by
  decide

/-- C9, amended: for every value whose conversion to text does not throw and every
cut `max`, `safeText` returns the empty string when the value is falsy
(`undefined`, `null`, `false`, `0`, `NaN`, the empty string) and otherwise its text
form, trimmed and then cut to its first `max` code units; the result is at most
`max` units long, and it is empty for an absent value. -/
theorem safeText_of_convertible (v : JSValue) (max : Nat) (s : JSString)
    (h : toText v = .ok s) :
    safeText v max = .ok (if truthy v then slice0 (trim s) max else []) ∧
    (∀ r, safeText v max = .ok r → r.length ≤ max) ∧
    (v = .undefined ∨ v = .null → safeText v max = .ok []) := by
  have hmain : safeText v max = .ok (if truthy v then slice0 (trim s) max else []) := by
    unfold safeText
    cases ht : truthy v
    · simp [toText, Except.map, trim_nil, slice0]
    · simp [h, Except.map]
  refine ⟨hmain, ?_, ?_⟩
  · intro r hr
    rw [hmain] at hr
    cases Except.ok.inj hr
    split
    · simp only [slice0, List.length_take]
      omega
    · simp
  · rintro (rfl | rfl) <;> simpa [truthy] using hmain

/-- Witness of the amended C9: a padded string cut to four units. -/
theorem safeText_of_convertible_witness :
    safeText (.str (utf16 "  hi there ")) 4 = .ok (utf16 "hi t") :=
  (safeText_of_convertible (.str (utf16 "  hi there ")) 4 (utf16 "  hi there ") rfl).1

/-- C10: for every request that gets past both checks of the checkout handler, an
error raised by the session creation of the provider gives the response 500 with
the fixed body `Unable to create checkout session.`, the same for every error and
without a url, the error going to the console only; a session returned by the
provider gives the response 200 whose `url` is the url of that session. -/
theorem checkout_provider_outcome (baseUrl : JSString)
    (create : SessionParams → Except JSError Session) (body : JSValue)
    (planId email : JSString)
    (hp : safeText (getField body (utf16 "planId")) 40 = .ok planId)
    (he : safeText (getField body (utf16 "email")) 120 = .ok email)
    (hplan : (depositsGet planId).truthy = true)
    (hemail : email = [] ∨ emailTest email = true) :
    (∀ err, create (sessionParams baseUrl planId email (depositsGet planId)) = .error err →
      createCheckoutSession baseUrl create body =
        ⟨[.sessionsCreate (sessionParams baseUrl planId email (depositsGet planId)),
          .consoleError err],
         .responded 500 (.error (utf16 "Unable to create checkout session."))⟩) ∧
    (∀ session, create (sessionParams baseUrl planId email (depositsGet planId)) = .ok session →
      createCheckoutSession baseUrl create body =
        ⟨[.sessionsCreate (sessionParams baseUrl planId email (depositsGet planId))],
         .responded 200 (.url session.url)⟩) := by
  rw [createCheckoutSession_validated baseUrl create body planId email hp he hplan hemail]
  constructor
  · intro err herr
    rw [herr]
    rfl
  · intro session hs
    rw [hs]

/-- Witness of C10: a valid request answered by a failing provider. -/
theorem checkout_provider_outcome_witness :
    (createCheckoutSession (utf16 "http://localhost:3000")
        (fun _ => .error ⟨utf16 "card network unreachable"⟩)
        (bodyOf [("planId", "starter_deposit"), ("email", "a@b.com")])).outcome
      = .responded 500 (.error (utf16 "Unable to create checkout session.")) :=
  congrArg Run.outcome
    ((checkout_provider_outcome (utf16 "http://localhost:3000")
      (fun _ => .error ⟨utf16 "card network unreachable"⟩)
      (bodyOf [("planId", "starter_deposit"), ("email", "a@b.com")])
      (utf16 "starter_deposit") (utf16 "a@b.com") (by decide) (by decide) (by decide)
      (Or.inr (by decide))).1 ⟨utf16 "card network unreachable"⟩ rfl)

end DepositServer
